import Mathlib

/-!
Verification of the `then` promise-chaining layer (src/include/then.hpp).

The source is a C++ template library over std::future / std::shared_future /
std::promise.  The recursion of `recursive_get` is driven entirely by the
static nesting of the type signature, so we embed a value of an arbitrarily
nested future type as an inductive datatype: each wrapper layer is a settled
future or shared_future whose shared state holds either the inner value or a
stored exception.  Exceptions are modelled by an opaque `Err` type; throwing
code is embedded as `Except Err`-returning functions.
-/

namespace Thenable

/-- Opaque model of a C++ exception.  The two named constructors model the
std::future_error codes raised by std::promise (used by the promise
overloads of `then`); `user` covers every other exception value. -/
inductive Err where
| future_already_retrieved
| promise_already_satisfied
| user : Nat → Err
deriving DecidableEq, Repr

/-- The settled outcome of a promise or future: a value or a stored error.
Models the shared state written by promise::set_value / set_exception. -/
inductive Settled (T : Type) where
| value : T → Settled T
| error : Err → Settled T
deriving DecidableEq, Repr

/-- A value of a possibly nested future type with innermost payload `T`:
`leaf t` is a plain non-future value of the payload type;
`futV k` is a `future<K>` whose shared state holds the inner value `k`;
`futE e` is a `future<K>` whose shared state holds the stored exception `e`;
`sfutV` / `sfutE` are the same for `shared_future<K>`.
The C++ recursion depth is fixed by the static type; here the same nesting
is the constructor structure of the value. -/
inductive Nested (T : Type) where
| leaf : T → Nested T
| futV : Nested T → Nested T
| futE : Err → Nested T
| sfutV : Nested T → Nested T
| sfutE : Err → Nested T
deriving DecidableEq, Repr

/-- `recursive_get` (then.hpp lines 106-165): calling `.get()` on a wrapper
either re-raises the stored exception or yields the inner value; if that
inner value is itself a future/shared_future, recurse on it, otherwise it is
the final payload.  The `leaf` equation is the base case `k.get()` returning
the non-future payload. -/
def recursive_get {T : Type} : Nested T → Except Err T
| .leaf t => .ok t
| .futV k => recursive_get k
| .futE e => .error e
| .sfutV k => recursive_get k
| .sfutE e => .error e

/-- The innermost payload of a nested value when every wrapper layer along
the way settled with a value; `none` if some layer stored an exception. -/
def innerValue {T : Type} : Nested T → Option T
| .leaf t => some t
| .futV k => innerValue k
| .futE _ => none
| .sfutV k => innerValue k
| .sfutE _ => none

/-- `n`-fold `future<...>` nesting around an innermost payload `t`:
`nestF 0 t` is `future<T>` holding `t`, `nestF (n+1) t` wraps one more
`future` layer around the settled value `nestF n t`. -/
def nestF {T : Type} : Nat → T → Nested T
| 0, t => .futV (.leaf t)
| n + 1, t => .futV (nestF n t)

/-- The result a callback hands back, as classified by its declared result
type: `plain u` when the declared result type is not a future wrapper,
`wrapped w` when it is `future<...>` or `shared_future<...>` (with `w` the
future-like value actually returned). -/
inductive CbResult (T : Type) where
| plain : T → CbResult T
| wrapped : Nested T → CbResult T

/-- `optional_get` (then.hpp lines 179-211): the primary template is the
identity on a non-future result; the `future`/`shared_future`
specializations pass the result through `recursive_get`. -/
def optional_get {T : Type} : CbResult T → Except Err T
| .plain t => .ok t
| .wrapped w => recursive_get w

/-- `then_invoke_helper::invoke` (then.hpp lines 222-228): invoke the
callback (which may throw, hence `Except`) and normalize its result through
`optional_get`. -/
def then_invoke_helper {A B : Type} (f : A → Except Err (CbResult B)) (a : A) :
    Except Err B :=
  match f a with
  | .error e => .error e
  | .ok r => optional_get r

/-- `then_invoke_helper<Functor, void>::invoke` (then.hpp lines 233-239):
a void callback is invoked for effect only; its "result" carries no value. -/
def then_invoke_helper_void {A : Type} (f : A → Except Err Unit) (a : A) :
    Except Err Unit :=
  f a

/-- `then_helper::dispatch` (then.hpp lines 250-259): fully resolve the
source future with `recursive_get`, then invoke the callback on the resolved
value; an exception from either step propagates. -/
def then_helper_dispatch {T B : Type} (s : Nested T)
    (f : T → Except Err (CbResult B)) : Except Err B :=
  match recursive_get s with
  | .error e => .error e
  | .ok v => then_invoke_helper f v

/-- `then_helper::dispatch` for a void-returning callback: resolve the
source, then invoke the callback for effect only. -/
def then_helper_dispatch_voidcb {T : Type} (s : Nested T)
    (f : T → Except Err Unit) : Except Err Unit :=
  match recursive_get s with
  | .error e => .error e
  | .ok v => then_invoke_helper_void f v

/-- `detached_then_helper<T>::dispatch` (then.hpp lines 334-355): run the
whole resolve/invoke/resolve sequence inside try/catch and settle the
explicit promise with the value or with the caught exception.  The return
type `Settled B` (never `Except`) is the model of "no exception escapes the
spawned thread". -/
def detached_then_helper_dispatch {T B : Type} (s : Nested T)
    (f : T → Except Err (CbResult B)) : Settled B :=
  match then_helper_dispatch s f with
  | .ok v => .value v
  | .error e => .error e

/-- `detached_then_helper<void>::dispatch` (then.hpp lines 360-385): the
void specialization settles the promise with no payload on success and with
the caught exception on failure. -/
def detached_then_helper_void_dispatch {T : Type} (s : Nested T)
    (f : T → Except Err Unit) : Settled Unit :=
  match then_helper_dispatch_voidcb s f with
  | .ok _ => .value ()
  | .error e => .error e

/-- `then_launch` (then.hpp lines 44-46): a type-safe enum whose only
enumerator is `detached`. -/
inductive then_launch where
| detached
deriving DecidableEq, Repr

/-- A future already settled with outcome `o`: the future returned by a
`then` chain once its work has run. -/
def resultFuture {B : Type} : Except Err B → Nested B
| .ok v => .futV (.leaf v)
| .error e => .futE e

/-- `then(future<T>&&, Functor, launch)` (then.hpp lines 288-293),
denotationally: the returned future eventually settles with the outcome of
`then_helper::dispatch` on the moved-in source. -/
def then_future {T B : Type} (s : Nested T) (f : T → Except Err (CbResult B)) :
    Nested B :=
  resultFuture (then_helper_dispatch s f)

/-- `then(shared_future<T>, Functor, launch)` (then.hpp lines 308-313): the
shared_future is captured by value in the lambda; the returned future
settles with the outcome of dispatching on that copy. -/
def then_shared {T B : Type} (s : Nested T) (f : T → Except Err (CbResult B)) :
    Nested B :=
  resultFuture (then_helper_dispatch s f)

/-- `then(future<T>&&, Functor, then_launch)` (then.hpp lines 400-421): the
detached overload asserts `policy == then_launch::detached`, then spawns a
detached thread running `detached_then_helper::dispatch` into a shared
promise and returns that promise's future.  The assertion is modelled as a
guard: `none` is an assertion failure, `some` the eventual settlement of the
returned future. -/
def then_future_detached {T B : Type} (s : Nested T)
    (f : T → Except Err (CbResult B)) (policy : then_launch) :
    Option (Settled B) :=
  if policy = then_launch.detached then
    some (detached_then_helper_dispatch s f)
  else
    none

/-- `then(shared_future<T>, Functor, then_launch)` (then.hpp lines 436-457):
same as `then_future_detached` but the source shared_future is captured by
copy. -/
def then_shared_detached {T B : Type} (s : Nested T)
    (f : T → Except Err (CbResult B)) (policy : then_launch) :
    Option (Settled B) :=
  if policy = then_launch.detached then
    some (detached_then_helper_dispatch s f)
  else
    none

/-- A deferred unit of work, as handed to `std::async(launch::deferred, ...)`:
a thunk that computes the chain outcome when first requested. -/
structure DeferredWork (B : Type) where
  thunk : Unit → Except Err B

/-- Observable state of a deferred future: how many times the work has run
and the cached outcome once it has. -/
structure DeferredState (B : Type) where
  runs : Nat
  cached : Option (Except Err B)

/-- The state of a deferred future before any result request: the work has
never run. -/
def DeferredState.init {B : Type} : DeferredState B :=
  ⟨0, none⟩

/-- Requesting the result of a deferred future (`get`/`wait`): on the first
request the work runs (exactly once) and its outcome is recorded; later
requests observe the recorded outcome without re-running the work. -/
def requestResult {B : Type} (w : DeferredWork B) (st : DeferredState B) :
    Except Err B × DeferredState B :=
  match st.cached with
  | some r => (r, st)
  | none =>
    let r := w.thunk ()
    (r, ⟨st.runs + 1, some r⟩)

/-- `then(future<T>&&, Functor, launch)` under `launch::deferred`: the
lambda passed to `std::async` becomes a deferred unit of work that
dispatches on the moved-in source when the result is first requested. -/
def then_future_deferred {T B : Type} (s : Nested T)
    (f : T → Except Err (CbResult B)) : DeferredWork B :=
  ⟨fun _ => then_helper_dispatch s f⟩

/-- `ThenableFuture<T>` (then.hpp lines 493-522): a future with a chaining
method; it wraps an underlying `future<T>` and is otherwise identical to
it. -/
structure ThenableFuture (T : Type) where
  base : Nested T

/-- `then2` (then.hpp lines 529-534): call `then` on the arguments and
re-wrap the resulting future as a `ThenableFuture`. -/
def then2F {T B : Type} (s : Nested T) (f : T → Except Err (CbResult B)) :
    ThenableFuture B :=
  ⟨then_future s f⟩

/-- `ThenableFuture::then` (then.hpp lines 517-521): the method forwards the
moved-out underlying future and the callback to `then2`. -/
def ThenableFuture.thenM {T B : Type} (tf : ThenableFuture T)
    (f : T → Except Err (CbResult B)) : ThenableFuture B :=
  then2F tf.base f

/-- Observable state of a `std::promise<T>`: whether `get_future` has
already been called (it may be called at most once) and the settled outcome,
if any, written into the shared state. -/
structure PromiseState (T : Type) where
  futureTaken : Bool
  settled : Option (Settled T)
deriving DecidableEq, Repr

/-- A freshly constructed promise: future not yet retrieved, nothing
settled. -/
def PromiseState.fresh {T : Type} : PromiseState T :=
  ⟨false, none⟩

/-- `promise::get_future`: returns the associated future the first time and
throws `std::future_error(future_already_retrieved)` on any later call.
The associated future itself is determined by the promise identity, so the
model returns only the updated promise state. -/
def PromiseState.get_future {T : Type} (p : PromiseState T) :
    Except Err (PromiseState T) :=
  if p.futureTaken then
    .error .future_already_retrieved
  else
    .ok { p with futureTaken := true }

/-- `promise::set_value`: settles the shared state with a value; throws
`std::future_error(promise_already_satisfied)` if already settled. -/
def PromiseState.set_value {T : Type} (p : PromiseState T) (v : T) :
    Except Err (PromiseState T) :=
  if p.settled.isSome then
    .error .promise_already_satisfied
  else
    .ok { p with settled := some (.value v) }

/-- `promise::set_exception`: settles the shared state with an error; throws
`std::future_error(promise_already_satisfied)` if already settled. -/
def PromiseState.set_exception {T : Type} (p : PromiseState T) (e : Err) :
    Except Err (PromiseState T) :=
  if p.settled.isSome then
    .error .promise_already_satisfied
  else
    .ok { p with settled := some (.error e) }

/-- The future<T> associated with a promise once the owner settles it with
outcome `st`. -/
def settledFuture {T : Type} : Settled T → Nested T
| .value v => .futV (.leaf v)
| .error e => .futE e

/-- `then(promise<T>&, Functor, launch)` (then.hpp lines 319-322): the
promise is not moved; `s.get_future()` is taken from it (which may throw if
already taken) and chained.  On success the call returns the chain, as a
function from the promise owner's eventual settlement to the chain outcome,
together with the promise state after the call. -/
def then_promise {T B : Type} (p : PromiseState T)
    (f : T → Except Err (CbResult B)) :
    Except Err ((Settled T → Except Err B) × PromiseState T) :=
  match p.get_future with
  | .error e => .error e
  | .ok p2 => .ok (fun st => then_helper_dispatch (settledFuture st) f, p2)

/-- `then(promise<T>&, Functor, then_launch)` (then.hpp lines 463-466): same
acquisition of the associated future, chained through the detached path. -/
def then_promise_detached {T B : Type} (p : PromiseState T)
    (f : T → Except Err (CbResult B)) (policy : then_launch) :
    Except Err ((Settled T → Option (Settled B)) × PromiseState T) :=
  match p.get_future with
  | .error e => .error e
  | .ok p2 => .ok (fun st => then_future_detached (settledFuture st) f policy, p2)

/-- The identity callback: returns its (non-future) argument unchanged and
never throws. -/
def idCallback {T : Type} : T → Except Err (CbResult T) :=
  fun t => Except.ok (CbResult.plain t)

/-! ## Helper lemmas -/

/-- If every wrapper layer of `w` settled with a value and the innermost
payload is `t`, the recursive resolver yields `t`. -/
theorem recursive_get_of_innerValue {T : Type} {w : Nested T} {t : T}
    (h : innerValue w = some t) : recursive_get w = Except.ok t := by
  induction w with
  | leaf x =>
    simp only [innerValue, Option.some.injEq] at h
    simp [recursive_get, h]
  | futV k ih =>
    simp only [innerValue] at h
    simpa [recursive_get] using ih h
  | futE e => simp [innerValue] at h
  | sfutV k ih =>
    simp only [innerValue] at h
    simpa [recursive_get] using ih h
  | sfutE e => simp [innerValue] at h

/-- An n-fold pure future nest has innermost payload `t`. -/
theorem innerValue_nestF {T : Type} (n : Nat) (t : T) :
    innerValue (nestF n t) = some t := by
  induction n with
  | zero => rfl
  | succ n ih => simpa [nestF, innerValue] using ih

/-! ## Claim theorems -/

/-- Claim C1: applying the recursive resolver to a Future/SharedFuture value
nested any number of levels around an innermost payload yields exactly that
innermost payload (never a future-typed value): each wrapper layer is
taken/read and resolution recurses until the non-future payload is reached;
in particular an n-level pure future nest around `t` resolves to `t` for
every depth n ≥ 0. -/
theorem recursive_get_resolves_innermost {T : Type} (w : Nested T) (t : T)
    (n : Nat) (h : innerValue w = some t) :
    recursive_get w = Except.ok t ∧ recursive_get (nestF n t) = Except.ok t :=
  ⟨recursive_get_of_innerValue h,
   recursive_get_of_innerValue (innerValue_nestF n t)⟩

/-- Witness for C1: a future-of-shared-future-of-42 resolves to 42, and so
does a 4-deep pure future nest around 42. -/
theorem recursive_get_resolves_innermost_witness :
    innerValue (Nested.futV (Nested.sfutV (Nested.leaf (42 : Nat)))) = some 42 ∧
    recursive_get (Nested.futV (Nested.sfutV (Nested.leaf (42 : Nat)))) = Except.ok 42 ∧
    recursive_get (nestF 3 (42 : Nat)) = Except.ok 42 := by
  have h := recursive_get_resolves_innermost
    (Nested.futV (Nested.sfutV (Nested.leaf (42 : Nat)))) 42 3 rfl
  exact ⟨rfl, h.1, h.2⟩

/-- Claim C2: a callback whose declared result type is a future wrapper has
its returned future passed through the recursive resolver, so invocation
yields the ultimate non-future payload, never a future; a callback
returning a plain non-future value yields that value directly. -/
theorem callback_future_result_unwrapped {T U : Type} (a : T) (w : Nested U)
    (u v : U) (f g : T → Except Err (CbResult U))
    (hf : f a = Except.ok (CbResult.wrapped w))
    (hw : innerValue w = some u)
    (hg : g a = Except.ok (CbResult.plain v)) :
    then_invoke_helper f a = Except.ok u ∧
    then_invoke_helper g a = Except.ok v := by
  constructor
  · simp [then_invoke_helper, hf, optional_get, recursive_get_of_innerValue hw]
  · simp [then_invoke_helper, hg, optional_get]

/-- Witness for C2: a callback returning a future holding 7 resolves to 7; a
callback returning the plain value 9 yields 9. -/
theorem callback_future_result_unwrapped_witness :
    then_invoke_helper
      (fun _ : Nat => Except.ok (CbResult.wrapped (Nested.futV (Nested.leaf (7 : Nat))))) 0 =
      Except.ok 7 ∧
    then_invoke_helper (fun _ : Nat => Except.ok (CbResult.plain (9 : Nat))) 0 =
      Except.ok 9 :=
  callback_future_result_unwrapped 0 (Nested.futV (Nested.leaf 7)) 7 9
    (fun _ => Except.ok (CbResult.wrapped (Nested.futV (Nested.leaf 7))))
    (fun _ => Except.ok (CbResult.plain 9)) rfl rfl rfl

/-- Claim C3: when the source settled with an error, the chain result
re-raises exactly that error for every callback — including void-returning
callbacks — so the outcome is independent of the callback, which is never
invoked; a void-returning callback on a successful source yields a result
carrying no value. -/
theorem source_error_skips_callback {T U : Type} (s s2 : Nested T) (e : Err)
    (v : T) (hs : recursive_get s = Except.error e)
    (h2 : innerValue s2 = some v) :
    (∀ f : T → Except Err (CbResult U),
      then_helper_dispatch s f = Except.error e) ∧
    (∀ g : T → Except Err Unit,
      then_helper_dispatch_voidcb s g = Except.error e) ∧
    (∀ g : T → Except Err Unit, g v = Except.ok () →
      then_helper_dispatch_voidcb s2 g = Except.ok ()) := by
  refine ⟨?_, ?_, ?_⟩
  · intro f
    simp [then_helper_dispatch, hs]
  · intro g
    simp [then_helper_dispatch_voidcb, hs]
  · intro g hg
    simp [then_helper_dispatch_voidcb, recursive_get_of_innerValue h2,
      then_invoke_helper_void, hg]

/-- Witness for C3: a source holding error `user 5` makes the chain re-raise
`user 5` for a value callback and for a void callback; a void callback on a
source holding 3 yields a valueless success. -/
theorem source_error_skips_callback_witness :
    then_helper_dispatch (Nested.futE (Err.user 5)) (idCallback (T := Nat)) =
      Except.error (Err.user 5) ∧
    then_helper_dispatch_voidcb (Nested.futE (Err.user 5))
      (fun _ : Nat => Except.ok ()) = Except.error (Err.user 5) ∧
    then_helper_dispatch_voidcb (Nested.futV (Nested.leaf (3 : Nat)))
      (fun _ : Nat => Except.ok ()) = Except.ok () := by
  have h := source_error_skips_callback (U := Nat) (Nested.futE (Err.user 5))
    (Nested.futV (Nested.leaf (3 : Nat))) (Err.user 5) 3 rfl rfl
  exact ⟨h.1 idCallback, h.2.1 (fun _ => Except.ok ()), h.2.2 (fun _ => Except.ok ()) rfl⟩

/-- Claim C4: on the detached path every error from the resolve/invoke/
resolve sequence is caught and becomes an error settlement of the explicit
result promise, and every success a value settlement; the void-result
specialization settles the promise with no payload on success.  The
settlement totality (return type `Settled`, never an escaping `Except`
error) is the model of "no error escapes the spawned unit uncaught". -/
theorem detached_catches_all_errors {T B : Type} (s : Nested T)
    (f : T → Except Err (CbResult B)) (g : T → Except Err Unit) (e : Err)
    (v : B) :
    (then_helper_dispatch s f = Except.error e →
      detached_then_helper_dispatch s f = Settled.error e) ∧
    (then_helper_dispatch s f = Except.ok v →
      detached_then_helper_dispatch s f = Settled.value v) ∧
    (then_helper_dispatch_voidcb s g = Except.error e →
      detached_then_helper_void_dispatch s g = Settled.error e) ∧
    (then_helper_dispatch_voidcb s g = Except.ok () →
      detached_then_helper_void_dispatch s g = Settled.value ()) := by
  refine ⟨?_, ?_, ?_, ?_⟩ <;> intro h <;>
    simp [detached_then_helper_dispatch, detached_then_helper_void_dispatch, h]

/-- Witness for C4: an errored source settles the detached promise with that
error; a successful source settles it with the value, and with no payload in
the void specialization. -/
theorem detached_catches_all_errors_witness :
    detached_then_helper_dispatch (Nested.futE (Err.user 1))
      (idCallback (T := Nat)) = Settled.error (Err.user 1) ∧
    detached_then_helper_dispatch (Nested.futV (Nested.leaf (6 : Nat)))
      (idCallback (T := Nat)) = Settled.value 6 ∧
    detached_then_helper_void_dispatch (Nested.futV (Nested.leaf (6 : Nat)))
      (fun _ : Nat => Except.ok ()) = Settled.value () := by
  refine ⟨?_, ?_, ?_⟩
  · exact (detached_catches_all_errors (Nested.futE (Err.user 1)) idCallback
      (fun _ => Except.ok ()) (Err.user 1) 0).1 rfl
  · exact (detached_catches_all_errors (Nested.futV (Nested.leaf (6 : Nat)))
      idCallback (fun _ => Except.ok ()) (Err.user 1) 6).2.1 rfl
  · exact (detached_catches_all_errors (Nested.futV (Nested.leaf (6 : Nat)))
      idCallback (fun _ => Except.ok ()) (Err.user 1) 6).2.2.2 rfl

/-- Claim C5: chaining a ready Future holding `v` with the identity callback
under the deferred policy yields a future whose value equals `v`; the work
is lazy (it has run zero times before any result request) and executes
exactly once, on the first request — a second request returns the same
outcome without running the work again. -/
theorem deferred_identity_chain {T : Type} (v : T) :
    (DeferredState.init : DeferredState T).runs = 0 ∧
    (requestResult (then_future_deferred (Nested.futV (Nested.leaf v)) idCallback)
      DeferredState.init).1 = Except.ok v ∧
    (requestResult (then_future_deferred (Nested.futV (Nested.leaf v)) idCallback)
      DeferredState.init).2.runs = 1 ∧
    requestResult (then_future_deferred (Nested.futV (Nested.leaf v)) idCallback)
      ((requestResult (then_future_deferred (Nested.futV (Nested.leaf v)) idCallback)
        DeferredState.init).2) =
      (Except.ok v,
       (requestResult (then_future_deferred (Nested.futV (Nested.leaf v)) idCallback)
        DeferredState.init).2) :=
  ⟨rfl, rfl, rfl, rfl⟩

/-- Claim C6: the fluent chain source.then(f).then(g) — via ThenableFuture's
method (modelled by `ThenableFuture.thenM`) and `then2` — produces the same
underlying future, and hence the same final resolved value, as the nested
free-function composition then(then(source, f), g). -/
theorem fluent_chain_matches_nested {T U V : Type} (s : Nested T)
    (f : T → Except Err (CbResult U)) (g : U → Except Err (CbResult V)) :
    ((then2F s f).thenM g).base = then_future (then_future s f) g ∧
    recursive_get ((then2F s f).thenM g).base =
      recursive_get (then_future (then_future s f) g) :=
  ⟨rfl, rfl⟩

/-- Claim C7: `then` on a promise reference acquires the associated future
without disturbing the promise itself: the call succeeds, the settled state
is unchanged, the owner can still settle a value or an error afterwards, and
the chain dispatches over the associated future once the owner settles it.
The same holds for the detached-policy promise overload. -/
theorem promise_then_leaves_promise_usable {T B : Type} (p : PromiseState T)
    (f : T → Except Err (CbResult B)) (h : p.futureTaken = false) :
    ∃ chain p2, then_promise p f = Except.ok (chain, p2) ∧
      p2.settled = p.settled ∧
      (p.settled = none → ∀ v : T,
        p2.set_value v = Except.ok { p2 with settled := some (Settled.value v) }) ∧
      (p.settled = none → ∀ e : Err,
        p2.set_exception e = Except.ok { p2 with settled := some (Settled.error e) }) ∧
      (∀ st : Settled T, chain st = then_helper_dispatch (settledFuture st) f) ∧
      ∃ dchain p3, then_promise_detached p f then_launch.detached = Except.ok (dchain, p3) ∧
        p3.settled = p.settled := by
  refine ⟨fun st => then_helper_dispatch (settledFuture st) f,
    { p with futureTaken := true }, ?_, rfl, ?_, ?_, fun st => rfl,
    fun st => then_future_detached (settledFuture st) f then_launch.detached,
    { p with futureTaken := true }, ?_, rfl⟩
  · simp [then_promise, PromiseState.get_future, h]
  · intro hs v
    simp [PromiseState.set_value, hs]
  · intro hs e
    simp [PromiseState.set_exception, hs]
  · simp [then_promise_detached, PromiseState.get_future, h]

/-- Witness for C7: chaining a fresh promise succeeds and leaves its settled
state untouched. -/
theorem promise_then_leaves_promise_usable_witness :
    ∃ chain p2,
      then_promise (PromiseState.fresh : PromiseState Nat) idCallback =
        Except.ok (chain, p2) ∧
      p2.settled = (PromiseState.fresh : PromiseState Nat).settled := by
  obtain ⟨chain, p2, h1, h2, -⟩ :=
    promise_then_leaves_promise_usable (PromiseState.fresh : PromiseState Nat)
      idCallback rfl
  exact ⟨chain, p2, h1, h2⟩

/-- Claim C8: the shared_future source is captured by copy, so after
building two independent chains from the same shared_future the caller's
original handle still reads the same value, and both chains dispatch their
callbacks on that same resolved value — neither interferes with the other
or with the original. -/
theorem shared_future_two_chains {T U V : Type} (s : Nested T) (v : T)
    (f : T → Except Err (CbResult U)) (g : T → Except Err (CbResult V))
    (h : innerValue s = some v) :
    recursive_get s = Except.ok v ∧
    then_shared s f = resultFuture (then_invoke_helper f v) ∧
    then_shared s g = resultFuture (then_invoke_helper g v) := by
  have hg := recursive_get_of_innerValue h
  refine ⟨hg, ?_, ?_⟩ <;> simp [then_shared, then_helper_dispatch, hg]

/-- Witness for C8: two chains built from a shared_future holding 11 both
dispatch on 11, and the original still reads 11. -/
theorem shared_future_two_chains_witness :
    recursive_get (Nested.sfutV (Nested.leaf (11 : Nat))) = Except.ok 11 ∧
    then_shared (Nested.sfutV (Nested.leaf (11 : Nat))) idCallback =
      resultFuture (then_invoke_helper idCallback 11) ∧
    then_shared (Nested.sfutV (Nested.leaf (11 : Nat)))
      (fun t : Nat => Except.ok (CbResult.plain (t + 1))) =
      resultFuture (then_invoke_helper (fun t : Nat => Except.ok (CbResult.plain (t + 1))) 11) :=
  shared_future_two_chains (Nested.sfutV (Nested.leaf 11)) 11 idCallback
    (fun t => Except.ok (CbResult.plain (t + 1))) rfl

/-- Claim C9: `then_launch` has `detached` as its only value, so the
precondition assertion policy == then_launch::detached holds on every call
made through the public then overloads taking a then_launch policy, and the
detached path always proceeds past its assertion to the detached dispatch. -/
theorem detached_assert_always_holds {T B : Type} (policy : then_launch)
    (s : Nested T) (f : T → Except Err (CbResult B)) :
    policy = then_launch.detached ∧
    then_future_detached s f policy = some (detached_then_helper_dispatch s f) ∧
    then_shared_detached s f policy = some (detached_then_helper_dispatch s f) := by
  cases policy
  refine ⟨rfl, ?_, ?_⟩ <;>
    simp [then_future_detached, then_shared_detached]

/-- Claim C10: the first `then` on a promise reference takes the one-time
associated future, so a second `then` on the same promise (under either
policy) raises future_already_retrieved, while the owner can still settle
the promise after the first call. -/
theorem promise_then_twice_fails {T B : Type} (p : PromiseState T)
    (f g : T → Except Err (CbResult B)) (h : p.futureTaken = false) :
    ∃ chain p2, then_promise p f = Except.ok (chain, p2) ∧
      then_promise p2 g = Except.error Err.future_already_retrieved ∧
      then_promise_detached p2 g then_launch.detached =
        Except.error Err.future_already_retrieved ∧
      (p.settled = none → ∀ v : T,
        p2.set_value v = Except.ok { p2 with settled := some (Settled.value v) }) := by
  refine ⟨fun st => then_helper_dispatch (settledFuture st) f,
    { p with futureTaken := true }, ?_, ?_, ?_, ?_⟩
  · simp [then_promise, PromiseState.get_future, h]
  · simp [then_promise, PromiseState.get_future]
  · simp [then_promise_detached, PromiseState.get_future]
  · intro hs v
    simp [PromiseState.set_value, hs]

/-- Witness for C10: chaining a fresh promise twice fails the second time
with future_already_retrieved, while set_value still succeeds. -/
theorem promise_then_twice_fails_witness :
    ∃ chain p2,
      then_promise (PromiseState.fresh : PromiseState Nat) idCallback =
        Except.ok (chain, p2) ∧
      then_promise p2 idCallback = Except.error Err.future_already_retrieved ∧
      p2.set_value 8 = Except.ok { p2 with settled := some (Settled.value 8) } := by
  obtain ⟨chain, p2, h1, h2, h3, h4⟩ :=
    promise_then_twice_fails (PromiseState.fresh : PromiseState Nat)
      idCallback idCallback rfl
  exact ⟨chain, p2, h1, h2, h4 rfl 8⟩

end Thenable
